import Mathlib

/-!
Shallow embedding of the ticket-synchronization core of the Hubble helpdesk
bot (`sheets_service.py`, `ticket_service.py`, `app.py`, `modal_builder.py`).

The spreadsheet backing store is modelled as a list of data rows (the rows
below the header, in physical order); each row is a list of cell strings of
possibly historical (narrower) width.  Reads pad missing trailing cells with
the empty string, and writes are single-cell point updates, exactly as the
Python code issues them through the Sheets API.  Timestamps (`datetime.now()
.strftime(...)`) enter every operation as an explicit `now : String`
argument.  Fallible store reads are modelled with `Option`: `none` is the
exception branch of the corresponding `try/except`.
-/

namespace Hubble

/-- A physical sheet row: the list of cell strings as stored. -/
abbrev Row := List String

/-- The data rows of the ticket sheet (everything below the header row),
in physical order. -/
abbrev Sheet := List Row

/-- Read cell `i` of a row; missing trailing cells read as `""`
(`row + [''] * (n - len(row))` padding in `get_tickets` and friends). -/
def getCell (r : Row) (i : Nat) : String := r.getD i ""

/-- Pad a row with empty cells up to width `n`. -/
def padTo (r : Row) (n : Nat) : Row := r ++ List.replicate (n - r.length) ""

/-- Point-update of one cell of a row (a single `values().update` on one
cell of the row); widens the row as the spreadsheet would. -/
def setCell (r : Row) (i : Nat) (v : String) : Row := (padTo r (i + 1)).set i v

/-- Point-update of cell `(rowIdx, col)` of the sheet; out-of-range row
indices leave the sheet unchanged (they never arise: row indices come from
a successful row scan). -/
def updateCell (s : Sheet) (rowIdx col : Nat) (v : String) : Sheet :=
  match s.get? rowIdx with
  | none => s
  | some r => s.set rowIdx (setCell r col v)

/-! Python string primitives, embedded structurally over the character
list so that every concrete instance evaluates inside the kernel. -/

/-- Python `str.strip()`: drop whitespace from both ends. -/
def pyStrip (s : String) : String :=
  ⟨((s.data.dropWhile Char.isWhitespace).reverse.dropWhile Char.isWhitespace).reverse⟩

/-- Python `str.upper()` on the ASCII values this system stores. -/
def pyUpper (s : String) : String := ⟨s.data.map Char.toUpper⟩

/-- Python `str.isdigit()` on the ASCII ids this system allocates. -/
def pyIsDigit (s : String) : Bool := !s.data.isEmpty && s.data.all Char.isDigit

/-- Python `int(...)` on a string of decimal digits. -/
def pyToNat (s : String) : Nat :=
  s.data.foldl (fun n c => n * 10 + (c.toNat - 48)) 0

/-- Whether the first list leads the second. -/
def leadMatch : List Char → List Char → Bool
  | [], _ => true
  | _ :: _, [] => false
  | p :: ps, c :: cs => p == c && leadMatch ps cs

/-- Python `str.startswith(pre)`. -/
def pyStarts (s pre : String) : Bool := leadMatch pre.data s.data

/-- Split a character list on a separator character. -/
def splitOnChar (sep : Char) : List Char → List (List Char)
  | [] => [[]]
  | c :: rest =>
    let r := splitOnChar sep rest
    if c = sep then [] :: r
    else
      match r with
      | h :: t => (c :: h) :: t
      | [] => [[c]]

/-- Python `str.split(sep)` for a one-character separator
(`"".split(',') == ['']`). -/
def pySplit (s : String) (sep : Char) : List String :=
  (splitOnChar sep s.data).map (fun cs => ⟨cs⟩)

/-- Python `str.replace(old, new)` for a one-character pattern (the only
shape this system uses: `thread_ts.replace('.', '')`). -/
def pyReplaceChar (s : String) (old : Char) (new : String) : String :=
  ⟨s.data.foldr (fun c acc => if c = old then new.data ++ acc else c :: acc) []⟩

/-- Join strings with a separator (`sep.join(xs)` / `str.join`). -/
def joinStr (sep : String) : List String → String
  | [] => ""
  | [x] => x
  | x :: rest => x ++ sep ++ joinStr sep rest

/-! ## Python dicts of strings

The ticket dictionaries, submitted-value maps and custom-field maps are all
flat `str -> str` dicts.  They are embedded as association lists in which a
later entry for a key overrides an earlier one (the last entry is the value
the dict holds), matching `{**base, **override}` merges and repeated
assignment. -/

abbrev StrDict := List (String × String)

/-- Dict lookup (`d.get(k)`), later entries overriding earlier ones. -/
def dictGet? (l : StrDict) (k : String) : Option String :=
  (l.reverse.find? (fun p => p.1 == k)).map (·.2)

/-- Dict lookup with default (`d.get(k, dflt)`). -/
def dictGet (l : StrDict) (k dflt : String) : String := (dictGet? l k).getD dflt

/-- Dict assignment `d[k] = v`: replace the value in place if the key is
present, else append the new entry. -/
def dictSet (l : StrDict) (k v : String) : StrDict :=
  if l.any (fun p => p.1 == k) then l.map (fun p => if p.1 == k then (k, v) else p)
  else l ++ [(k, v)]

/-! ## The custom-fields JSON cell

Column M stores `json.dumps` of a flat `str -> str` dict and is read back
with `json.loads`, falling back to `{}` on any parse failure.  The codec
below embeds `json.dumps`/`json.loads` restricted to the flat string maps
this program ever writes (the only JSON feature used): object syntax with
string keys and string values, `", "`/`": "` separators on the way out,
arbitrary whitespace tolerated on the way in, backslash escapes for `\` and
`"`.  Any input outside this fragment decodes to the empty map, which is
also what the Python fallback produces for it. -/

abbrev CustomFields := StrDict

/-- JSON string escaping for the characters `json.dumps` escapes in the
maps this program stores. -/
def escChar (c : Char) : List Char :=
  if c = '\\' ∨ c = '"' then ['\\', c] else [c]

/-- A JSON string literal, quotes included. -/
def jsonQuote (s : String) : String :=
  ⟨'"' :: s.data.foldr (fun c acc => escChar c ++ acc) ['"']⟩

/-- `json.dumps` of a flat string map (default `", "` / `": "` separators). -/
def dumpsCF (m : CustomFields) : String :=
  "\x7b" ++ joinStr ", " (m.map (fun p => jsonQuote p.1 ++ ": " ++ jsonQuote p.2)) ++ "\x7d"

/-- The cell value written for a custom-fields map:
`json.dumps(custom_fields) if custom_fields else ''`. -/
def dumpsCell (m : CustomFields) : String := if m.isEmpty then "" else dumpsCF m

/-- Parse the body of a JSON string literal after its opening quote;
returns the decoded characters and the rest of the input. -/
def parseJStr : List Char → Option (List Char × List Char)
  | [] => none
  | '"' :: rest => some ([], rest)
  | '\\' :: c :: rest => (parseJStr rest).map (fun p => (c :: p.1, p.2))
  | c :: rest => (parseJStr rest).map (fun p => (c :: p.1, p.2))

/-- Skip JSON whitespace. -/
def skipWs : List Char → List Char
  | [] => []
  | c :: rest =>
    if c = ' ' ∨ c = '\t' ∨ c = '\n' ∨ c = '\r' then skipWs rest else c :: rest

/-- Parse a nonempty `"k": "v", ...` entry list up to and including the
closing brace.  Fuel bounds the recursion; callers pass more fuel than the
input length. -/
def parseEntryList : Nat → List Char → Option (CustomFields × List Char)
  | 0, _ => none
  | fuel + 1, cs =>
    match skipWs cs with
    | '"' :: cs1 =>
      match parseJStr cs1 with
      | none => none
      | some (k, cs2) =>
        match skipWs cs2 with
        | ':' :: cs3 =>
          match skipWs cs3 with
          | '"' :: cs4 =>
            match parseJStr cs4 with
            | none => none
            | some (v, cs5) =>
              match skipWs cs5 with
              | ',' :: cs6 =>
                match parseEntryList fuel cs6 with
                | none => none
                | some (m, cs7) => some ((⟨k⟩, ⟨v⟩) :: m, cs7)
              | '\x7d' :: cs6 => some ([(⟨k⟩, ⟨v⟩)], cs6)
              | _ => none
          | _ => none
        | _ => none
    | _ => none

/-- `json.loads` of a custom-fields cell with the surrounding
`try/except` of `get_tickets`: any failure yields the empty map. -/
def loadsCF (s : String) : CustomFields :=
  match skipWs s.data with
  | '\x7b' :: rest =>
    match skipWs rest with
    | '\x7d' :: rest2 => if skipWs rest2 = [] then [] else []
    | _ =>
      match parseEntryList (s.length + 1) rest with
      | some (m, rest2) => if skipWs rest2 = [] then m else []
      | none => []
  | _ => []

/-! ## `SheetsService.get_tickets` -/

/-- The ticket dictionary `get_tickets` builds from one (padded) physical
row: the named columns, `created_by`/`assignee_id` recovered from the
custom-fields map with display-name fallback, and the custom fields merged
in last (so they override the named entries on key collision, as `**
custom_fields` does). -/
def ticketOfRow (row : Row) : StrDict :=
  let r := padTo row 14
  let cf := loadsCF (getCell r 12)
  let creatorId := dictGet cf "requester_id" (getCell r 2)
  let assigneeId :=
    if pyStarts (getCell r 5) "U" then dictGet cf "assignee_id" (getCell r 5)
    else getCell r 5
  [("ticket_id", pyStrip (getCell r 0)),
   ("thread_link", getCell r 1),
   ("created_by", creatorId),
   ("requester_name", getCell r 2),
   ("status", getCell r 3),
   ("priority", getCell r 4),
   ("assignee", getCell r 5),
   ("assignee_id", assigneeId),
   ("created_at", getCell r 6),
   ("first_response", getCell r 7),
   ("resolved_at", getCell r 8),
   ("message", getCell r 9),
   ("channel_id", getCell r 10),
   ("channel_name", getCell r 11),
   ("internal_message_ts", getCell r 13)] ++ cf

/-- Key under which a row is deduplicated: `row[0].strip()`. -/
def rowKey (row : Row) : String := pyStrip (getCell (padTo row 14) 0)

/-- A row is processed only when its raw id cell is non-empty
(`if row[0]:`). -/
def rowValid (row : Row) : Bool := getCell (padTo row 14) 0 != ""

/-- Insertion into the `ticket_dict` insertion-ordered dict: an existing
key keeps its position and takes the new value, a new key is appended. -/
def tblInsert (acc : List (String × StrDict)) (k : String) (v : StrDict) :
    List (String × StrDict) :=
  if acc.any (fun p => p.1 == k) then acc.map (fun p => if p.1 == k then (k, v) else p)
  else acc ++ [(k, v)]

/-- The `ticket_dict` built by `get_tickets` over the physical rows. -/
def ticketTable (rows : List Row) : List (String × StrDict) :=
  rows.foldl
    (fun acc row => if rowValid row then tblInsert acc (rowKey row) (ticketOfRow row) else acc)
    []

/-- `SheetsService.get_tickets`.  The argument is the result of the
underlying range read: `none` is the exception branch, on which the method
returns the empty list. -/
def getTickets (readResult : Option (List Row)) : List StrDict :=
  match readResult with
  | none => []
  | some rows => (ticketTable rows).map (·.2)

/-- `TicketService.get_ticket`: linear scan of `get_tickets` by exact
`ticket_id` match. -/
def getTicket (readResult : Option (List Row)) (ticketId : String) : Option StrDict :=
  (getTickets readResult).find? (fun t => dictGet t "ticket_id" "" == ticketId)

/-! ## Channel configuration (the `Config` sheet tab)

`get_channel_config_map` returns one settings dict per configured channel;
a channel present in the map always carries all seven keys (possibly empty
strings), a channel absent from the map yields `{}` so every `.get` on it
falls back to its call-site default. -/

structure ChannelConfig where
  channel_name : String
  admin_user_ids : String
  default_assignee : String
  priorities : String
  modal_template_key : String
  internal_channel_id : String
deriving DecidableEq, Repr

abbrev ConfigMap := List (String × ChannelConfig)

/-- `cfg_map.get(channel_id)`. -/
def cfgFor? (m : ConfigMap) (channelId : String) : Option ChannelConfig :=
  (m.find? (fun p => p.1 == channelId)).map (·.2)

/-- Parse a comma-separated admin list:
`[u.strip() for u in csv.split(',') if u.strip()]`. -/
def parseAdminCsv (csv : String) : List String :=
  ((pySplit csv ',').map pyStrip).filter (fun u => u != "")

/-- The effective admin id list for a channel: the per-channel CSV when it
is non-empty, else the global `ADMIN_USER_IDS` environment CSV. -/
def adminIdsFor (m : ConfigMap) (envAdminCsv : String) (channelId : String) : List String :=
  let csv := ((cfgFor? m channelId).map (·.admin_user_ids)).getD ""
  if csv != "" then parseAdminCsv csv else parseAdminCsv envAdminCsv

/-- `SheetsService._get_default_assignee`: the channel's configured default
assignee, `@`-prefixed when non-empty. -/
def defaultAssigneeFor (m : ConfigMap) (channelId : String) : String :=
  let a := pyStrip (((cfgFor? m channelId).map (·.default_assignee)).getD "")
  if a != "" && !pyStarts a "@" then "@" ++ a else a

/-- `SheetsService._get_channel_name`: the configured channel name, falling
back to the channel id when the channel has no config row. -/
def channelNameFor (m : ConfigMap) (channelId : String) : String :=
  match cfgFor? m channelId with
  | some c => c.channel_name
  | none => channelId

/-! ## Store mutations (`SheetsService`) -/

/-- The row scan shared by every update path: index of the first physical
row whose non-empty first cell strips to the stripped target id. -/
def findRowIdx (rows : Sheet) (ticketId : String) : Option Nat :=
  match rows with
  | [] => none
  | row :: rest =>
    if row.length > 0 && (pyStrip (row.headD "") == pyStrip ticketId) then some 0
    else (findRowIdx rest ticketId).map (· + 1)

/-- `SheetsService.update_ticket_status`: validates the status, scans for
the row, writes column D (status) and column I (resolved-at, stamped `now`
on Closed and cleared otherwise) as two cell writes, then verifies the
status cell read-back. -/
def sheetsUpdateStatus (sheet : Sheet) (ticketId newStatus now : String) : Bool × Sheet :=
  if !(newStatus == "Open" || newStatus == "Closed") then (false, sheet)
  else
    match findRowIdx sheet ticketId with
    | none => (false, sheet)
    | some i =>
      let resolvedAt := if newStatus == "Closed" then now else ""
      let s1 := updateCell sheet i 3 newStatus
      let s2 := updateCell s1 i 8 resolvedAt
      (getCell (s2.getD i []) 3 == newStatus, s2)

/-- `SheetsService.update_ticket_priority`: validates the upper-cased
priority against the fixed set, writes the upper-cased value to column E,
and verifies the read-back. -/
def sheetsUpdatePriority (sheet : Sheet) (ticketId priority : String) : Bool × Sheet :=
  if !(["CRITICAL", "HIGH", "MEDIUM", "LOW"].contains (pyUpper priority)) then (false, sheet)
  else
    match findRowIdx sheet ticketId with
    | none => (false, sheet)
    | some i =>
      let s1 := updateCell sheet i 4 (pyUpper priority)
      (getCell (s1.getD i []) 4 == pyUpper priority, s1)

/-- `SheetsService.update_ticket_from_modal`: scans for the row, then
issues one cell write per field — requester (C), status (D), priority (E),
assignee (F), the always-stamped update time into column G, resolved-at (I)
only when the status is Closed, description (J), and, when a custom-fields
map is passed, the serialized map into column M. -/
def sheetsUpdateFromModal (sheet : Sheet) (ticketId requester status assignee priority description : String)
    (customFields : Option CustomFields) (now : String) : Bool × Sheet :=
  match findRowIdx sheet ticketId with
  | none => (false, sheet)
  | some i =>
    let s1 := updateCell sheet i 2 requester
    let s2 := updateCell s1 i 3 status
    let s3 := updateCell s2 i 4 priority
    let s4 := updateCell s3 i 5 assignee
    let s5 := updateCell s4 i 6 now
    let s6 := if status == "Closed" then updateCell s5 i 8 now else s5
    let s7 := updateCell s6 i 9 description
    let s8 :=
      match customFields with
      | some cf => updateCell s7 i 12 (dumpsCell cf)
      | none => s7
    (true, s8)

/-- `SheetsService.append_ticket` specialized to the dictionaries
`TicketService.create_ticket` builds (the only creation path in the
synchronization core): duplicate ids are rejected without writing,
otherwise one 14-cell row is physically appended, with the thread link
derived from the thread timestamp, the channel's default assignee and
configured name, empty first-response/resolved-at cells and an empty
custom-fields cell. -/
def appendTicket (cfgMap : ConfigMap) (sheet : Sheet) (now : String)
    (ticketId threadTs channelId requesterName status priority description : String) : Bool × Sheet :=
  if (getTickets (some sheet)).any (fun t => dictGet t "ticket_id" "" == ticketId) then (false, sheet)
  else
    let threadLink :=
      if threadTs != "" then
        "https://amberstudent.slack.com/archives/" ++ channelId ++ "/p" ++ pyReplaceChar threadTs '.' ""
      else ""
    let row : Row :=
      [ticketId, threadLink, requesterName, status, priority,
       defaultAssigneeFor cfgMap channelId, now, "", "", description,
       channelId, channelNameFor cfgMap channelId, "", ""]
    (true, sheet ++ [row])

/-! ## Domain service (`TicketService`) -/

/-- `TicketService._get_next_ticket_id`: 1 when the store returns no
tickets; otherwise `max(int(t['ticket_id']) for t in tickets if
t['ticket_id'].isdigit()) + 1`.  `max` over an empty generator raises
`ValueError`, modelled as `none`. -/
def numericIds (tickets : List StrDict) : List Nat :=
  tickets.filterMap (fun t =>
    let s := dictGet t "ticket_id" ""
    if pyIsDigit s then some (pyToNat s) else none)

def getNextTicketId (tickets : List StrDict) : Option Nat :=
  if tickets.isEmpty then some 1
  else
    match numericIds tickets with
    | [] => none
    | x :: xs => some (xs.foldl max x + 1)

/-- The domain service's in-process state: the id counter computed at
start-up and the backing sheet. -/
structure TSState where
  nextId : Nat
  sheet : Sheet
deriving DecidableEq, Repr

/-- `TicketService.create_ticket`: takes the next id from the counter
(incrementing it unconditionally), builds the ticket dictionary with
status Open, empty assignee and empty resolved-at, and appends it;
returns the new id on success and `none` on a duplicate-append failure. -/
def createTicket (cfgMap : ConfigMap) (now : String) (st : TSState)
    (messageText requesterId requesterName threadTs channelId priority : String) :
    Option String × TSState :=
  let tid := toString st.nextId
  let rname := if requesterName = "" then "@" ++ requesterId else requesterName
  match appendTicket cfgMap st.sheet now tid threadTs channelId rname "Open" priority messageText with
  | (true, s) => (some tid, ⟨st.nextId + 1, s⟩)
  | (false, s) => (none, ⟨st.nextId + 1, s⟩)

/-- `TicketService.update_ticket_status`: not-found and invalid-status
checks before delegating to the store update. -/
def tsUpdateStatus (sheet : Sheet) (ticketId newStatus now : String) : Bool × Sheet :=
  match getTicket (some sheet) ticketId with
  | none => (false, sheet)
  | some _ =>
    if !(newStatus == "Open" || newStatus == "Closed") then (false, sheet)
    else sheetsUpdateStatus sheet ticketId newStatus now

/-- `TicketService.update_ticket_priority`: not-found check, then
validation of the raw string against the Title-case set
`['Low', 'Medium', 'High', 'Urgent']`, then the store update (which
re-validates upper-case against `['CRITICAL','HIGH','MEDIUM','LOW']`). -/
def tsUpdatePriority (sheet : Sheet) (ticketId priority : String) : Bool × Sheet :=
  match getTicket (some sheet) ticketId with
  | none => (false, sheet)
  | some _ =>
    if !(["Low", "Medium", "High", "Urgent"].contains priority) then (false, sheet)
    else sheetsUpdatePriority sheet ticketId priority

/-- `TicketService.update_ticket_from_modal`: not-found check, then the
store's modal bulk update. -/
def tsUpdateFromModal (sheet : Sheet) (ticketId requester status assignee priority description : String)
    (customFields : Option CustomFields) (now : String) : Bool × Sheet :=
  match getTicket (some sheet) ticketId with
  | none => (false, sheet)
  | some _ =>
    sheetsUpdateFromModal sheet ticketId requester status assignee priority description customFields now

/-! ## Permission evaluator (`app.py`) -/

/-- The creator check used by the view/edit and submission handlers:
`user_id == ticket.get('created_by', '')`. -/
def isCreator (userId : String) (ticket : StrDict) : Bool :=
  userId == dictGet ticket "created_by" ""

/-! ## Field templates and modal value extraction (`modal_builder.py`) -/

/-- One field descriptor of a modal template (one `Modal Templates` row). -/
structure Field where
  field_id : String
  field_label : String
  field_type : String
  required : Bool
  options : String
  order : Nat
deriving DecidableEq, Repr

/-- A text-valued field with the given id (templates are looked up out of
scope; only `field_id`/`field_type` matter to value extraction). -/
def mkField (fid ftype : String) : Field := ⟨fid, fid, ftype, false, "", 999⟩

/-- The per-action payload inside `view.state.values[block_id][action_id]`.
Each accessor models the corresponding `.get(key, "")` (the nested
`selected_option` carries its `value` directly). -/
structure ActionPayload where
  selected_user : Option String := none
  selected_option : Option String := none
  selected_date : Option String := none
  value : Option String := none
deriving DecidableEq, Repr

/-- The submitted value bag `view.state.values`: block id to
(action id to payload). -/
abbrev ValueBag := List (String × List (String × ActionPayload))

def bagBlock? (values : ValueBag) (blockId : String) : Option (List (String × ActionPayload)) :=
  (values.find? (fun p => p.1 == blockId)).map (·.2)

def blockAction? (bv : List (String × ActionPayload)) (actionId : String) : Option ActionPayload :=
  (bv.find? (fun p => p.1 == actionId)).map (·.2)

/-- `extract_modal_values`: one entry per template field present in the
bag, extracted through the type-specific accessor path; absent fields are
omitted. -/
def extractModalValues (values : ValueBag) (fields : List Field) : StrDict :=
  fields.foldl
    (fun acc f =>
      match bagBlock? values f.field_id with
      | none => acc
      | some bv =>
        if f.field_type == "user_select" then
          match blockAction? bv (f.field_id ++ "_select") with
          | some p => dictSet acc f.field_id (p.selected_user.getD "")
          | none => acc
        else if f.field_type == "select" then
          match blockAction? bv (f.field_id ++ "_select") with
          | some p => dictSet acc f.field_id (p.selected_option.getD "")
          | none => acc
        else if f.field_type == "date" then
          match blockAction? bv (f.field_id ++ "_date") with
          | some p => dictSet acc f.field_id (p.selected_date.getD "")
          | none => acc
        else
          match blockAction? bv (f.field_id ++ "_input") with
          | some p => dictSet acc f.field_id (p.value.getD "")
          | none => acc)
    []

/-! ## Modal submission (`handle_modal_submission_direct`, `app.py`) -/

/-- The response a modal submission produces: a field-scoped validation
error (the only failure surface of the form-submission channel) or the
modal-clearing success. -/
inductive SubmitResponse where
  | errors (fieldId msg : String)
  | clear
deriving DecidableEq, Repr

/-- The core-field slice of the submitted values, with the
empty-description backfill applied when the template declares a
`description` field the submission left out. -/
def modalCoreData (fields : List Field) (submitted : StrDict) : StrDict :=
  let coreFieldIds := ["requester", "status", "assignee", "priority", "description"]
  let coreData := submitted.filter (fun p => coreFieldIds.contains p.1)
  if (dictGet? coreData "description").isNone
      && (fields.map (·.field_id)).contains "description" then
    coreData ++ [("description", "")]
  else coreData

/-- The non-core slice of the submitted values (the custom fields before
the user-id stashing). -/
def modalCustomBase (submitted : StrDict) : StrDict :=
  submitted.filter
    (fun p => !(["requester", "status", "assignee", "priority", "description"].contains p.1))

/-- The post-permission body of `handle_modal_submission_direct`, taking
the already-extracted submitted values: core/custom split, the
empty-description backfill, display-name resolution through the identity
resolver (`Unknown` on failure), status carry-through for creator-only
submitters, user-id stashing into the custom fields, and the bulk store
update. -/
def modalSubmitApply (resolveName : String → Option String) (now : String) (sheet : Sheet)
    (ticketId : String) (ticket : StrDict) (isAdmin isCr : Bool) (fields : List Field)
    (submitted : StrDict) : SubmitResponse × Sheet :=
  let coreData := modalCoreData fields submitted
  let customData := modalCustomBase submitted
  let requesterId := dictGet coreData "requester" ""
  let assigneeId := dictGet coreData "assignee" ""
  let getUserName := fun uid => (resolveName uid).getD "Unknown"
  let requesterName := if requesterId != "" then getUserName requesterId else ""
  let assigneeName := if assigneeId != "" then getUserName assigneeId else ""
  let requester := if requesterName != "" then "@" ++ requesterName else ""
  let assignee := if assigneeName != "" then "@" ++ assigneeName else ""
  let status :=
    if isCr && !isAdmin then dictGet ticket "status" "Open"
    else dictGet coreData "status" (dictGet ticket "status" "Open")
  let priority := dictGet coreData "priority" "MEDIUM"
  let description := dictGet coreData "description" ""
  let customData := if requesterId != "" then dictSet customData "requester_id" requesterId else customData
  let customData := if assigneeId != "" then dictSet customData "assignee_id" assigneeId else customData
  match tsUpdateFromModal sheet ticketId requester status assignee priority description (some customData) now with
  | (true, sheet') => (.clear, sheet')
  | (false, sheet') =>
    (.errors "description" "Failed to update ticket. Please try again.", sheet')

/-- `handle_modal_submission_direct` on its non-exception path, after the
private-metadata parse: not-found and permission checks (admins and
creators only, error keyed to `description` otherwise), then value
extraction and the submission body.  `fields` is the
`get_modal_template(template_key)` result; `resolveName` is the
best-effort `users_info` lookup. -/
def handleModalSubmissionDirect (cfgMap : ConfigMap) (envAdminCsv : String)
    (resolveName : String → Option String) (now : String) (sheet : Sheet)
    (ticketId channelId userId : String) (fields : List Field) (values : ValueBag) :
    SubmitResponse × Sheet :=
  match getTicket (some sheet) ticketId with
  | none => (.errors "description" "Ticket not found. Please try again.", sheet)
  | some ticket =>
    let adminIds := adminIdsFor cfgMap envAdminCsv channelId
    let isAdmin := adminIds.contains userId
    let isCr := isCreator userId ticket
    if !isAdmin && !isCr then
      (.errors "description" "Only admins and ticket creators can update tickets.", sheet)
    else
      modalSubmitApply resolveName now sheet ticketId ticket isAdmin isCr fields
        (extractModalValues values fields)

/-! ## Mutation sequences and the status/resolved-at invariant -/

/-- The domain-service mutations quantified over by the invariant claims:
ticket creation and status updates, each with arbitrary string inputs. -/
inductive TicketOp where
  | create (messageText requesterId requesterName threadTs channelId priority : String)
  | updateStatus (ticketId newStatus : String)
deriving DecidableEq, Repr

/-- Apply one domain mutation at wall-clock time `now`. -/
def applyOp (cfgMap : ConfigMap) (st : TSState) (op : TicketOp) (now : String) : TSState :=
  match op with
  | .create msg rid rname tts cid prio =>
    (createTicket cfgMap now st msg rid rname tts cid prio).2
  | .updateStatus tid ns => ⟨st.nextId, (tsUpdateStatus st.sheet tid ns now).2⟩

/-- Apply a sequence of domain mutations, each paired with its `now`. -/
def applyOps (cfgMap : ConfigMap) (st : TSState) : List (TicketOp × String) → TSState
  | [] => st
  | (op, now) :: rest => applyOps cfgMap (applyOp cfgMap st op now) rest

/-- The spec invariant, per stored row: the resolved-at cell (column I) is
non-empty exactly when the status cell (column D) is `Closed`. -/
def rowInv (r : Row) : Prop := getCell r 8 ≠ "" ↔ getCell r 3 = "Closed"

/-- The invariant over every physical row of the store (stronger than over
the deduplicated visible tickets, which are a subset of the rows). -/
def sheetInv (s : Sheet) : Prop := ∀ r ∈ s, rowInv r

instance (r : Row) : Decidable (rowInv r) := by unfold rowInv; infer_instance

instance (s : Sheet) : Decidable (sheetInv s) := by
  unfold sheetInv; exact List.decidableBAll _ s

/-! ## Cell-level lemmas -/

theorem padTo_length (r : Row) (n : Nat) : (padTo r n).length = max r.length n := by
  simp only [padTo, List.length_append, List.length_replicate]
  omega

theorem getCell_padTo (r : Row) (n i : Nat) : getCell (padTo r n) i = getCell r i := by
  simp only [getCell, padTo, List.getD_eq_getElem?_getD, List.getElem?_append,
    List.getElem?_replicate]
  rcases Nat.lt_or_ge i r.length with h | h
  · simp [h]
  · simp [Nat.not_lt_of_ge h, List.getElem?_eq_none h]
    split <;> rfl

theorem getCell_setCell (r : Row) (i j : Nat) (v : String) :
    getCell (setCell r i v) j = if j = i then v else getCell r j := by
  have hlen : i < (padTo r (i + 1)).length := by
    rw [padTo_length]; omega
  by_cases h : j = i
  · subst h
    simp [getCell, setCell, List.getD_eq_getElem?_getD, List.getElem?_set_self hlen]
  · simp only [getCell, setCell, List.getD_eq_getElem?_getD,
      List.getElem?_set_ne (fun he => h he.symm), if_neg h]
    rw [← List.getD_eq_getElem?_getD, ← List.getD_eq_getElem?_getD, ← getCell, ← getCell,
      getCell_padTo]

theorem updateCell_oob (s : Sheet) (i c : Nat) (v : String) (h : s.length ≤ i) :
    updateCell s i c v = s := by
  simp only [updateCell, List.get?_eq_getElem?, List.getElem?_eq_none h]

theorem updateCell_length (s : Sheet) (i c : Nat) (v : String) :
    (updateCell s i c v).length = s.length := by
  simp only [updateCell]
  cases h : s.get? i <;> simp

theorem updateCell_getD (s : Sheet) (i c : Nat) (v : String) (hi : i < s.length) (j : Nat) :
    (updateCell s i c v).getD j [] =
      if j = i then setCell (s.getD i []) c v else s.getD j [] := by
  have hget : s.get? i = some (s.getD i []) := by
    rw [List.get?_eq_getElem?, List.getElem?_eq_getElem hi, List.getD_eq_getElem?_getD,
      List.getElem?_eq_getElem hi]
    rfl
  simp only [updateCell, hget]
  by_cases h : j = i
  · subst h
    simp [List.getD_eq_getElem?_getD, List.getElem?_set_self hi]
  · simp [List.getD_eq_getElem?_getD, List.getElem?_set_ne (fun he => h he.symm), h]

theorem findRowIdx_lt (rows : Sheet) (tid : String) (i : Nat)
    (h : findRowIdx rows tid = some i) : i < rows.length := by
  induction rows generalizing i with
  | nil => simp [findRowIdx] at h
  | cons row rest ih =>
    simp only [findRowIdx] at h
    split at h
    · cases h; simp
    · cases hr : findRowIdx rest tid with
      | none => rw [hr] at h; cases h
      | some j =>
        rw [hr] at h
        cases h
        simpa using Nat.succ_lt_succ (ih j hr)

theorem updateCell_getD_ne (s : Sheet) (i c : Nat) (v : String) (j : Nat) (hj : j ≠ i) :
    (updateCell s i c v).getD j [] = s.getD j [] := by
  rcases Nat.lt_or_ge i s.length with hi | hi
  · rw [updateCell_getD _ _ _ _ hi, if_neg hj]
  · rw [updateCell_oob _ _ _ _ hi]

theorem updateCell_getD_self (s : Sheet) (i c : Nat) (v : String) (hi : i < s.length) :
    (updateCell s i c v).getD i [] = setCell (s.getD i []) c v := by
  rw [updateCell_getD _ _ _ _ hi, if_pos rfl]

/-! ## Behaviour of `update_ticket_from_modal` on a found row -/

/-- A chain of single-cell writes to row `i` of the sheet. -/
def writeCells (s : Sheet) (i : Nat) : List (Nat × String) → Sheet
  | [] => s
  | (c, v) :: ws => writeCells (updateCell s i c v) i ws

/-- The same chain of writes seen at the level of the written row. -/
def rowWrites (r : Row) (ws : List (Nat × String)) : Row :=
  ws.foldl (fun r cv => setCell r cv.1 cv.2) r

/-- The (column, value) writes `update_ticket_from_modal` issues, in
order. -/
def modalWriteList (req stt asg pr desc : String) (cf : Option CustomFields)
    (now : String) : List (Nat × String) :=
  [(2, req), (3, stt), (4, pr), (5, asg), (6, now)]
    ++ (if stt == "Closed" then [(8, now)] else [])
    ++ [(9, desc)]
    ++ (match cf with | some m => [(12, dumpsCell m)] | none => [])

/-- The located row after `update_ticket_from_modal`'s writes. -/
def modalRowWrite (r : Row) (req stt asg pr desc : String) (cf : Option CustomFields)
    (now : String) : Row :=
  rowWrites r (modalWriteList req stt asg pr desc cf now)

theorem writeCells_length (ws : List (Nat × String)) (s : Sheet) (i : Nat) :
    (writeCells s i ws).length = s.length := by
  induction ws generalizing s with
  | nil => rfl
  | cons cv ws ih => rw [writeCells, ih, updateCell_length]

theorem writeCells_getD (ws : List (Nat × String)) (s : Sheet) (i : Nat)
    (hi : i < s.length) (j : Nat) :
    (writeCells s i ws).getD j [] =
      if j = i then rowWrites (s.getD i []) ws else s.getD j [] := by
  induction ws generalizing s with
  | nil =>
    by_cases hj : j = i
    · subst hj; simp [writeCells, rowWrites]
    · simp [writeCells, rowWrites, hj]
  | cons cv ws ih =>
    obtain ⟨c, v⟩ := cv
    rw [writeCells, ih _ (by rw [updateCell_length]; exact hi)]
    by_cases hj : j = i
    · subst hj
      rw [if_pos rfl, if_pos rfl, updateCell_getD_self _ _ _ _ hi]
      rfl
    · rw [if_neg hj, if_neg hj, updateCell_getD_ne _ _ _ _ _ hj]

theorem sheetsUpdateFromModal_eq (sheet : Sheet) (tid req stt asg pr desc now : String)
    (cf : Option CustomFields) (i : Nat) (h : findRowIdx sheet tid = some i) :
    sheetsUpdateFromModal sheet tid req stt asg pr desc cf now =
      (true, writeCells sheet i (modalWriteList req stt asg pr desc cf now)) := by
  simp only [sheetsUpdateFromModal, h]
  cases cf <;> by_cases hstt : (stt == "Closed") = true <;>
    simp only [modalWriteList, hstt, Bool.false_eq_true, if_true, if_false] <;> rfl

theorem sheetsUpdateFromModal_spec (sheet : Sheet) (tid req stt asg pr desc now : String)
    (cf : Option CustomFields) (i : Nat) (h : findRowIdx sheet tid = some i) :
    (sheetsUpdateFromModal sheet tid req stt asg pr desc cf now).1 = true ∧
    (sheetsUpdateFromModal sheet tid req stt asg pr desc cf now).2.length = sheet.length ∧
    ∀ j, (sheetsUpdateFromModal sheet tid req stt asg pr desc cf now).2.getD j [] =
      if j = i then modalRowWrite (sheet.getD i []) req stt asg pr desc cf now
      else sheet.getD j [] := by
  have hi : i < sheet.length := findRowIdx_lt _ _ _ h
  rw [sheetsUpdateFromModal_eq sheet tid req stt asg pr desc now cf i h]
  exact ⟨rfl, writeCells_length _ _ _, fun j => writeCells_getD _ _ _ hi j⟩

/-- Cell content of the row written by `update_ticket_from_modal`. -/
theorem modalRowWrite_cells (r : Row) (req stt asg pr desc now : String)
    (cf : Option CustomFields) :
    getCell (modalRowWrite r req stt asg pr desc cf now) 2 = req ∧
    getCell (modalRowWrite r req stt asg pr desc cf now) 3 = stt ∧
    getCell (modalRowWrite r req stt asg pr desc cf now) 4 = pr ∧
    getCell (modalRowWrite r req stt asg pr desc cf now) 5 = asg ∧
    getCell (modalRowWrite r req stt asg pr desc cf now) 6 = now ∧
    getCell (modalRowWrite r req stt asg pr desc cf now) 8 =
      (if stt == "Closed" then now else getCell r 8) ∧
    getCell (modalRowWrite r req stt asg pr desc cf now) 9 = desc ∧
    getCell (modalRowWrite r req stt asg pr desc cf now) 12 =
      (match cf with | some m => dumpsCell m | none => getCell r 12) ∧
    ∀ c, c ≠ 2 → c ≠ 3 → c ≠ 4 → c ≠ 5 → c ≠ 6 → c ≠ 8 → c ≠ 9 → c ≠ 12 →
      getCell (modalRowWrite r req stt asg pr desc cf now) c = getCell r c := by
  cases cf <;> by_cases hstt : (stt == "Closed") = true <;>
    (simp only [modalRowWrite, modalWriteList, rowWrites, hstt, Bool.false_eq_true,
       if_true, if_false, List.append_assoc, List.cons_append, List.nil_append,
       List.foldl_cons, List.foldl_nil]
     refine ⟨?_, ?_, ?_, ?_, ?_, ?_, ?_, ?_, ?_⟩ <;>
       first
       | (intro c h2 h3 h4 h5 h6 h8 h9 h12
          simp [getCell_setCell, h2, h3, h4, h5, h6, h8, h9, h12])
       | simp [getCell_setCell])

/-! ## Behaviour of `update_ticket_status` -/

theorem sheetsUpdateStatus_eq (sheet : Sheet) (tid stt now : String) (i : Nat)
    (h : findRowIdx sheet tid = some i) (hv : (stt == "Open" || stt == "Closed") = true) :
    sheetsUpdateStatus sheet tid stt now =
      (true, writeCells sheet i [(3, stt), (8, if stt == "Closed" then now else "")]) := by
  have hi : i < sheet.length := findRowIdx_lt _ _ _ h
  simp only [sheetsUpdateStatus, hv, Bool.not_true, Bool.false_eq_true, if_false, h]
  have hchain : updateCell (updateCell sheet i 3 stt) i 8 (if stt == "Closed" then now else "") =
      writeCells sheet i [(3, stt), (8, if stt == "Closed" then now else "")] := rfl
  rw [hchain, writeCells_getD _ _ _ hi, if_pos rfl]
  simp [rowWrites, getCell_setCell]

/-- The not-found and invalid-status failure cases of
`TicketService.update_ticket_status` leave the sheet untouched. -/
theorem tsUpdateStatus_fail (sheet : Sheet) (tid stt now : String)
    (hfail : ¬(stt = "Open" ∨ stt = "Closed") ∨ getTicket (some sheet) tid = none) :
    tsUpdateStatus sheet tid stt now = (false, sheet) := by
  cases hg : getTicket (some sheet) tid with
  | none => simp [tsUpdateStatus, hg]
  | some t =>
    rcases hfail with hbad | hnone
    · have hb : (stt == "Open" || stt == "Closed") = false := by
        push_neg at hbad
        simp [hbad.1, hbad.2]
      simp [tsUpdateStatus, hg, hb]
    · rw [hg] at hnone; cases hnone

/-! ## The status/resolved-at invariant under create and update_status -/

theorem sheetInv_iff (s : Sheet) : sheetInv s ↔ ∀ j < s.length, rowInv (s.getD j []) := by
  constructor
  · intro h j hj
    apply h
    rw [List.getD_eq_getElem?_getD, List.getElem?_eq_getElem hj]
    exact List.getElem_mem hj
  · intro h r hr
    obtain ⟨n, hn, he⟩ := List.mem_iff_getElem.mp hr
    have := h n hn
    rwa [List.getD_eq_getElem?_getD, List.getElem?_eq_getElem hn, Option.getD_some, he] at this

theorem rowInv_statusWrite (r : Row) (stt now : String)
    (hv : stt = "Open" ∨ stt = "Closed") (hnow : now ≠ "") :
    rowInv (rowWrites r [(3, stt), (8, if stt == "Closed" then now else "")]) := by
  rcases hv with h | h <;> subst h <;>
    simp [rowInv, rowWrites, getCell_setCell, hnow]

theorem sheetInv_tsUpdateStatus (sheet : Sheet) (tid stt now : String)
    (hinv : sheetInv sheet) (hnow : now ≠ "") :
    sheetInv (tsUpdateStatus sheet tid stt now).2 := by
  cases hg : getTicket (some sheet) tid with
  | none => simpa [tsUpdateStatus, hg] using hinv
  | some t =>
    by_cases hv : (stt == "Open" || stt == "Closed") = true
    · cases hfind : findRowIdx sheet tid with
      | none =>
        simp only [tsUpdateStatus, hg, hv, Bool.not_true, Bool.false_eq_true, if_false,
          sheetsUpdateStatus, hfind]
        exact hinv
      | some i =>
        simp only [tsUpdateStatus, hg, hv, Bool.not_true, Bool.false_eq_true, if_false]
        rw [sheetsUpdateStatus_eq sheet tid stt now i hfind hv]
        have hi : i < sheet.length := findRowIdx_lt _ _ _ hfind
        rw [sheetInv_iff]
        intro j hj
        rw [writeCells_getD _ _ _ hi]
        by_cases hji : j = i
        · rw [if_pos hji]
          refine rowInv_statusWrite _ _ _ ?_ hnow
          rcases Bool.or_eq_true_iff.mp hv with h | h
          · exact Or.inl (eq_of_beq h)
          · exact Or.inr (eq_of_beq h)
        · rw [if_neg hji]
          exact (sheetInv_iff sheet).mp hinv j (by rwa [writeCells_length] at hj)
    · have hb : (stt == "Open" || stt == "Closed") = false := by
        simpa using hv
      simpa [tsUpdateStatus, hg, hb] using hinv

theorem createTicket_sheet (cfgMap : ConfigMap) (now : String) (st : TSState)
    (msg rid rname tts cid prio : String) :
    (createTicket cfgMap now st msg rid rname tts cid prio).2.sheet =
      (appendTicket cfgMap st.sheet now (toString st.nextId) tts cid
        (if rname = "" then "@" ++ rid else rname) "Open" prio msg).2 := by
  simp only [createTicket]
  rcases happ : appendTicket cfgMap st.sheet now (toString st.nextId) tts cid
      (if rname = "" then "@" ++ rid else rname) "Open" prio msg with ⟨b, s⟩
  cases b <;> simp [happ]

theorem sheetInv_createTicket (cfgMap : ConfigMap) (now : String) (st : TSState)
    (msg rid rname tts cid prio : String) (hinv : sheetInv st.sheet) :
    sheetInv (createTicket cfgMap now st msg rid rname tts cid prio).2.sheet := by
  rw [createTicket_sheet]
  simp only [appendTicket]
  split
  · exact hinv
  · intro r hr
    rcases List.mem_append.mp hr with hold | hnew
    · exact hinv r hold
    · rcases List.mem_singleton.mp hnew with rfl
      simp [rowInv, getCell]

theorem sheetInv_applyOps (cfgMap : ConfigMap) (ops : List (TicketOp × String)) :
    ∀ st : TSState, sheetInv st.sheet → (∀ p ∈ ops, p.2 ≠ "") →
      sheetInv (applyOps cfgMap st ops).sheet := by
  induction ops with
  | nil => intro st hinv _; exact hinv
  | cons p rest ih =>
    intro st hinv hnow
    obtain ⟨op, now⟩ := p
    rw [applyOps]
    refine ih _ ?_ (fun q hq => hnow q (List.mem_cons_of_mem _ hq))
    cases op with
    | create msg rid rname tts cid prio =>
      exact sheetInv_createTicket cfgMap now st msg rid rname tts cid prio hinv
    | updateStatus tid ns =>
      exact sheetInv_tsUpdateStatus st.sheet tid ns now hinv
        (hnow (.updateStatus tid ns, now) (List.mem_cons_self _ _))

/-! ## Characterization of `get_tickets` deduplication -/

/-- Lookup in the insertion-ordered `ticket_dict`. -/
def tblLookup (tbl : List (String × StrDict)) (k : String) : Option StrDict :=
  (tbl.find? (fun p => p.1 == k)).map (·.2)

/-- The keys of the `ticket_dict`, in insertion order. -/
def tblKeys (tbl : List (String × StrDict)) : List String := tbl.map (·.1)

theorem find?_map_replace_ne (acc : List (String × StrDict)) (k : String) (v : StrDict)
    (k' : String) (h : k' ≠ k) :
    (acc.map (fun p => if p.1 == k then (k, v) else p)).find? (fun p => p.1 == k') =
      acc.find? (fun p => p.1 == k') := by
  induction acc with
  | nil => rfl
  | cons a acc ih =>
    by_cases ha : (a.1 == k) = true
    · have hak : a.1 = k := eq_of_beq ha
      have hk : (k == k') = false := beq_eq_false_iff_ne.mpr (fun he => h he.symm)
      have ha' : (a.1 == k') = false := by rw [hak]; exact hk
      rw [List.map_cons, if_pos ha,
        @List.find?_cons_of_neg _ (fun p => p.1 == k') (k, v) _ (by simp [hk]),
        @List.find?_cons_of_neg _ (fun p => p.1 == k') a _ (by simp [ha']), ih]
    · rw [List.map_cons, if_neg ha]
      by_cases ha' : (a.1 == k') = true
      · rw [@List.find?_cons_of_pos _ (fun p => p.1 == k') a _ ha',
          @List.find?_cons_of_pos _ (fun p => p.1 == k') a _ ha']
      · rw [@List.find?_cons_of_neg _ (fun p => p.1 == k') a _ ha',
          @List.find?_cons_of_neg _ (fun p => p.1 == k') a _ ha', ih]

theorem find?_map_replace_self (acc : List (String × StrDict)) (k : String) (v : StrDict)
    (h : acc.any (fun p => p.1 == k) = true) :
    (acc.map (fun p => if p.1 == k then (k, v) else p)).find? (fun p => p.1 == k) =
      some (k, v) := by
  induction acc with
  | nil => simp at h
  | cons a acc ih =>
    by_cases ha : (a.1 == k) = true
    · rw [List.map_cons, if_pos ha,
        @List.find?_cons_of_pos _ (fun p => p.1 == k) (k, v) _ (by simp)]
    · have h' : acc.any (fun p => p.1 == k) = true := by
        simpa [ha] using h
      rw [List.map_cons, if_neg ha,
        @List.find?_cons_of_neg _ (fun p => p.1 == k) a _ (by simpa using ha), ih h']

theorem tblLookup_tblInsert (acc : List (String × StrDict)) (k : String) (v : StrDict)
    (k' : String) :
    tblLookup (tblInsert acc k v) k' = if k' = k then some v else tblLookup acc k' := by
  by_cases hany : acc.any (fun p => p.1 == k) = true
  · rw [tblInsert, if_pos hany]
    by_cases hk : k' = k
    · subst hk
      unfold tblLookup
      rw [find?_map_replace_self acc k' v hany, if_pos rfl]
      rfl
    · unfold tblLookup
      rw [find?_map_replace_ne acc k v k' hk, if_neg hk]
  · rw [tblInsert, if_neg hany]
    have hnone : acc.find? (fun p => p.1 == k) = none :=
      List.find?_eq_none.mpr (List.any_eq_false.mp (Bool.eq_false_iff.mpr hany))
    by_cases hk : k' = k
    · subst hk
      unfold tblLookup
      rw [List.find?_append, hnone, Option.none_or, if_pos rfl,
        @List.find?_cons_of_pos _ (fun p => p.1 == k') (k', v) _ (by simp)]
      rfl
    · have hkk : (k == k') = false := beq_eq_false_iff_ne.mpr (fun he => hk he.symm)
      unfold tblLookup
      rw [List.find?_append, if_neg hk,
        @List.find?_cons_of_neg _ (fun p => p.1 == k') (k, v) _ (by simp [hkk]),
        List.find?_nil, Option.or_none]

theorem tblKeys_tblInsert_nodup (acc : List (String × StrDict)) (k : String) (v : StrDict)
    (h : (tblKeys acc).Nodup) : (tblKeys (tblInsert acc k v)).Nodup := by
  by_cases hany : acc.any (fun p => p.1 == k) = true
  · rw [tblInsert, if_pos hany]
    have hkeys : tblKeys (acc.map (fun p => if p.1 == k then (k, v) else p)) = tblKeys acc := by
      unfold tblKeys
      rw [List.map_map]
      apply List.map_congr_left
      intro p _
      by_cases hpk : (p.1 == k) = true
      · simp [Function.comp, hpk, eq_of_beq hpk]
      · simp [Function.comp, hpk]
    rwa [hkeys]
  · rw [tblInsert, if_neg hany]
    have hnotin : k ∉ tblKeys acc := by
      intro hmem
      obtain ⟨p, hp, hpk⟩ := List.mem_map.mp hmem
      exact (List.any_eq_false.mp (Bool.eq_false_iff.mpr hany) p hp) (by simp [hpk])
    unfold tblKeys
    rw [List.map_append]
    simp only [List.map_cons, List.map_nil]
    rw [List.nodup_append]
    exact ⟨h, List.nodup_singleton k, by
      intro a ha hb
      rcases List.mem_singleton.mp hb with rfl
      exact hnotin ha⟩

/-- The last physical row matched by `ticket_dict[ticket_id] = ticket`
while scanning, as a left fold. -/
def lastMatchRow (rows : List Row) (k : String) : Option Row :=
  rows.foldl (fun acc row => if rowValid row && rowKey row == k then some row else acc) none

theorem lastMatchRow_seed (rows : List Row) (k : String) (w : Option Row) :
    rows.foldl (fun acc row => if rowValid row && rowKey row == k then some row else acc) w =
      (lastMatchRow rows k).or w := by
  induction rows generalizing w with
  | nil => simp [lastMatchRow]
  | cons row rest ih =>
    rw [List.foldl_cons, ih]
    have hcons : lastMatchRow (row :: rest) k =
        (lastMatchRow rest k).or
          (if rowValid row && rowKey row == k then some row else none) := by
      show List.foldl _ _ (row :: rest) = _
      rw [List.foldl_cons, ih]
    rw [hcons, Option.or_assoc]
    by_cases hc : (rowValid row && rowKey row == k) = true
    · simp [hc]
    · simp [hc]

theorem lastMatchRow_cons (row : Row) (rest : List Row) (k : String) :
    lastMatchRow (row :: rest) k =
      (lastMatchRow rest k).or
        (if rowValid row && rowKey row == k then some row else none) := by
  show List.foldl _ _ (row :: rest) = _
  rw [List.foldl_cons, lastMatchRow_seed]

theorem lastMatchRow_filter (rows : List Row) (k : String) :
    lastMatchRow rows k =
      (rows.filter (fun row => rowValid row && rowKey row == k)).getLast? := by
  induction rows with
  | nil => rfl
  | cons row rest ih =>
    rw [lastMatchRow_cons, ih, List.filter_cons]
    by_cases hc : (rowValid row && rowKey row == k) = true
    · rw [if_pos hc, if_pos hc]
      cases hf : (rest.filter (fun row => rowValid row && rowKey row == k)).getLast? with
      | none =>
        rw [List.getLast?_eq_none_iff.mp hf]
        simp
      | some r =>
        rw [List.getLast?_cons, hf]
        simp
    · rw [if_neg hc, if_neg hc]
      simp

theorem ticketTable_lookup_aux (k : String) (rows : List Row) :
    ∀ acc, tblLookup (rows.foldl
        (fun acc row =>
          if rowValid row then tblInsert acc (rowKey row) (ticketOfRow row) else acc) acc) k =
      ((lastMatchRow rows k).map ticketOfRow).or (tblLookup acc k) := by
  induction rows with
  | nil => intro acc; simp [lastMatchRow]
  | cons row rest ih =>
    intro acc
    rw [List.foldl_cons, ih, lastMatchRow_cons]
    cases hl : lastMatchRow rest k with
    | some r => simp
    | none =>
      simp only [Option.none_or]
      by_cases hval : rowValid row = true
      · by_cases hkey : (rowKey row == k) = true
        · have hke : k = rowKey row := (eq_of_beq hkey).symm
          simp [hval, hkey, tblLookup_tblInsert, hke]
        · have hkne : k ≠ rowKey row := fun he => hkey (beq_iff_eq.mpr he.symm)
          simp [hval, hkey, tblLookup_tblInsert, hkne]
      · simp [hval]

theorem ticketTable_lookup (rows : List Row) (k : String) :
    tblLookup (ticketTable rows) k = (lastMatchRow rows k).map ticketOfRow := by
  have := ticketTable_lookup_aux k rows []
  simpa [ticketTable, tblLookup] using this

theorem ticketTable_keys_nodup (rows : List Row) :
    (tblKeys (ticketTable rows)).Nodup := by
  suffices aux : ∀ acc, (tblKeys acc).Nodup →
      (tblKeys (rows.foldl
        (fun acc row =>
          if rowValid row then tblInsert acc (rowKey row) (ticketOfRow row) else acc) acc)).Nodup by
    exact aux [] List.nodup_nil
  induction rows with
  | nil => intro acc h; exact h
  | cons row rest ih =>
    intro acc h
    rw [List.foldl_cons]
    apply ih
    by_cases hval : rowValid row = true
    · rw [if_pos hval]
      exact tblKeys_tblInsert_nodup acc _ _ h
    · rw [if_neg hval]
      exact h

/-! ## Dictionary lemmas -/

theorem dictGet?_append (a b : StrDict) (k : String) :
    dictGet? (a ++ b) k = (dictGet? b k).or (dictGet? a k) := by
  unfold dictGet?
  rw [List.reverse_append, List.find?_append]
  cases h : b.reverse.find? (fun p => p.1 == k) <;> simp [h]

theorem find?_key_filter (m : StrDict) (q : String → Bool) (k : String) (hk : q k = true) :
    (m.filter (fun p => q p.1)).find? (fun p => p.1 == k) = m.find? (fun p => p.1 == k) := by
  induction m with
  | nil => rfl
  | cons a m ih =>
    rw [List.filter_cons]
    by_cases hq : q a.1 = true
    · rw [if_pos hq]
      by_cases hak : (a.1 == k) = true
      · rw [@List.find?_cons_of_pos _ (fun p => p.1 == k) a _ hak,
          @List.find?_cons_of_pos _ (fun p => p.1 == k) a _ hak]
      · rw [@List.find?_cons_of_neg _ (fun p => p.1 == k) a _ hak,
          @List.find?_cons_of_neg _ (fun p => p.1 == k) a _ hak, ih]
    · rw [if_neg hq]
      have hak : ¬((a.1 == k) = true) := fun hb => hq (by rw [eq_of_beq hb]; exact hk)
      rw [@List.find?_cons_of_neg _ (fun p => p.1 == k) a _ hak, ih]

theorem dictGet?_filterKey (l : StrDict) (q : String → Bool) (k : String) (hk : q k = true) :
    dictGet? (l.filter (fun p => q p.1)) k = dictGet? l k := by
  unfold dictGet?
  rw [← List.filter_reverse, find?_key_filter _ q k hk]

/-- Filtering out the core field ids is insensitive to first dropping the
`status` entries (since `status` is itself a core id). -/
theorem filter_noncore_eq_filterNE (l : StrDict) :
    l.filter
        (fun p => !(["requester", "status", "assignee", "priority", "description"].contains p.1)) =
      (l.filter (fun p => p.1 != "status")).filter
        (fun p => !(["requester", "status", "assignee", "priority", "description"].contains p.1)) := by
  induction l with
  | nil => rfl
  | cons a l ih =>
    by_cases hs : (a.1 != "status") = true
    · rw [List.filter_cons, List.filter_cons, if_pos hs, List.filter_cons]
      by_cases hc :
          (!(["requester", "status", "assignee", "priority", "description"].contains a.1)) = true
      · rw [if_pos hc, if_pos hc, ih]
      · rw [if_neg hc, if_neg hc, ih]
    · have ha : a.1 = "status" := by simpa using hs
      have hc :
          ¬((!(["requester", "status", "assignee", "priority", "description"].contains a.1)) = true) := by
        simp [ha]
      rw [List.filter_cons, List.filter_cons, if_neg hc, if_neg hs, ih]

/-! ## Maximum of the numeric id scan -/

theorem le_foldl_max (xs : List Nat) (x : Nat) : x ≤ xs.foldl max x := by
  induction xs generalizing x with
  | nil => exact Nat.le_refl x
  | cons a xs ih => exact Nat.le_trans (Nat.le_max_left x a) (ih (max x a))

theorem mem_le_foldl_max (xs : List Nat) (n : Nat) (h : n ∈ xs) :
    ∀ x, n ≤ xs.foldl max x := by
  induction xs with
  | nil => cases h
  | cons a xs ih =>
    intro x
    rcases List.mem_cons.mp h with rfl | hmem
    · exact Nat.le_trans (Nat.le_max_right x n) (le_foldl_max xs (max x n))
    · exact ih hmem (max x a)

theorem foldl_max_mem (xs : List Nat) : ∀ x, xs.foldl max x = x ∨ xs.foldl max x ∈ xs := by
  induction xs with
  | nil => exact fun x => Or.inl rfl
  | cons a xs ih =>
    intro x
    rcases ih (max x a) with h | h
    · rw [List.foldl_cons, h]
      rcases max_choice x a with he | he
      · exact Or.inl he
      · exact Or.inr (by rw [he]; exact List.mem_cons_self a xs)
    · exact Or.inr (List.mem_cons_of_mem a h)

theorem getNextTicketId_no_numeric (tickets : List StrDict) (hne : tickets ≠ [])
    (h : numericIds tickets = []) : getNextTicketId tickets = none := by
  simp [getNextTicketId, List.isEmpty_iff, hne, h]

theorem getNextTicketId_max_succ (tickets : List StrDict) (m : Nat)
    (h : m ∈ numericIds tickets) :
    ∃ k, getNextTicketId tickets = some (k + 1) ∧ k ∈ numericIds tickets ∧
      ∀ n ∈ numericIds tickets, n ≤ k := by
  have hne : tickets ≠ [] := by
    intro he
    rw [he] at h
    simp [numericIds] at h
  cases hxs : numericIds tickets with
  | nil => rw [hxs] at h; cases h
  | cons x xs =>
    refine ⟨xs.foldl max x, ?_, ?_, ?_⟩
    · simp [getNextTicketId, List.isEmpty_iff, hne, hxs]
    · rcases foldl_max_mem xs x with he | hm
      · rw [he]; exact List.mem_cons_self _ _
      · exact List.mem_cons_of_mem _ hm
    · intro n hn
      rcases List.mem_cons.mp hn with rfl | hmem
      · exact le_foldl_max xs n
      · exact mem_le_foldl_max xs n hmem x

/-! ## Handler-level lemmas for the modal submission path -/

theorem handleModalSubmissionDirect_reject (cfgMap : ConfigMap) (envAdminCsv : String)
    (resolveName : String → Option String) (now : String) (sheet : Sheet)
    (ticketId channelId userId : String) (fields : List Field) (values : ValueBag)
    (t : StrDict) (hticket : getTicket (some sheet) ticketId = some t)
    (hadmin : (adminIdsFor cfgMap envAdminCsv channelId).contains userId = false)
    (hcr : isCreator userId t = false) :
    handleModalSubmissionDirect cfgMap envAdminCsv resolveName now sheet ticketId channelId
        userId fields values =
      (.errors "description" "Only admins and ticket creators can update tickets.", sheet) := by
  simp only [handleModalSubmissionDirect, hticket]
  rw [hadmin, hcr]
  simp only [Bool.not_false, Bool.and_self, if_true]

theorem handleModalSubmissionDirect_submit (cfgMap : ConfigMap) (envAdminCsv : String)
    (resolveName : String → Option String) (now : String) (sheet : Sheet)
    (ticketId channelId userId : String) (fields : List Field) (values : ValueBag)
    (t : StrDict) (hticket : getTicket (some sheet) ticketId = some t)
    (hadmin : (adminIdsFor cfgMap envAdminCsv channelId).contains userId = false)
    (hcr : isCreator userId t = true) :
    handleModalSubmissionDirect cfgMap envAdminCsv resolveName now sheet ticketId channelId
        userId fields values =
      modalSubmitApply resolveName now sheet ticketId t false true fields
        (extractModalValues values fields) := by
  simp only [handleModalSubmissionDirect, hticket]
  rw [hadmin, hcr]
  simp only [Bool.not_false, Bool.not_true, Bool.true_and, Bool.and_false, Bool.false_and,
    Bool.false_eq_true, if_false]

theorem modalSubmitApply_creator_clear (resolveName : String → Option String) (now : String)
    (sheet : Sheet) (ticketId : String) (t : StrDict) (fields : List Field)
    (submitted : StrDict) (i : Nat) (hfind : findRowIdx sheet ticketId = some i)
    (hticket : getTicket (some sheet) ticketId = some t) :
    (modalSubmitApply resolveName now sheet ticketId t false true fields submitted).1 =
      .clear ∧
    getCell ((modalSubmitApply resolveName now sheet ticketId t false true fields
        submitted).2.getD i []) 3 = dictGet t "status" "Open" := by
  have hupd : ∀ r a p d c,
      tsUpdateFromModal sheet ticketId r (dictGet t "status" "Open") a p d (some c) now =
        (true, writeCells sheet i
          (modalWriteList r (dictGet t "status" "Open") a p d (some c) now)) := by
    intro r a p d c
    rw [tsUpdateFromModal, hticket]
    exact sheetsUpdateFromModal_eq sheet ticketId r _ a p d now (some c) i hfind
  simp only [modalSubmitApply, Bool.not_false, Bool.and_self, if_true, hupd]
  refine ⟨by trivial, ?_⟩
  rw [writeCells_getD _ _ _ (findRowIdx_lt _ _ _ hfind), if_pos rfl]
  exact (modalRowWrite_cells _ _ _ _ _ _ _ _).2.1

/-- Core-field reads used by the submission body are insensitive to the
submitted `status` entries. -/
theorem coreRead_filterNE (sub₁ sub₂ : StrDict)
    (hf : sub₁.filter (fun p => p.1 != "status") = sub₂.filter (fun p => p.1 != "status"))
    (k : String)
    (hc : (["requester", "status", "assignee", "priority", "description"].contains k) = true)
    (hs : (k != "status") = true) :
    dictGet?
        (sub₁.filter
          (fun p => ["requester", "status", "assignee", "priority", "description"].contains p.1))
        k =
      dictGet?
        (sub₂.filter
          (fun p => ["requester", "status", "assignee", "priority", "description"].contains p.1))
        k := by
  rw [dictGet?_filterKey sub₁ _ k hc,
    ← dictGet?_filterKey sub₁ (fun s => s != "status") k hs, hf,
    dictGet?_filterKey sub₂ (fun s => s != "status") k hs,
    ← dictGet?_filterKey sub₂ _ k hc]

theorem modalCoreData_read (fields : List Field) (sub₁ sub₂ : StrDict)
    (hf : sub₁.filter (fun p => p.1 != "status") = sub₂.filter (fun p => p.1 != "status"))
    (k : String)
    (hc : (["requester", "status", "assignee", "priority", "description"].contains k) = true)
    (hs : (k != "status") = true) :
    dictGet? (modalCoreData fields sub₁) k = dictGet? (modalCoreData fields sub₂) k := by
  have hdesc := coreRead_filterNE sub₁ sub₂ hf "description" rfl rfl
  have hk := coreRead_filterNE sub₁ sub₂ hf k hc hs
  unfold modalCoreData
  have hcnd :
      ((dictGet? (sub₁.filter
          (fun p => ["requester", "status", "assignee", "priority", "description"].contains p.1))
        "description").isNone && (fields.map (·.field_id)).contains "description") =
      ((dictGet? (sub₂.filter
          (fun p => ["requester", "status", "assignee", "priority", "description"].contains p.1))
        "description").isNone && (fields.map (·.field_id)).contains "description") := by
    rw [hdesc]
  by_cases h :
      ((dictGet? (sub₁.filter
          (fun p => ["requester", "status", "assignee", "priority", "description"].contains p.1))
        "description").isNone && (fields.map (·.field_id)).contains "description") = true
  · rw [if_pos h, if_pos (by rw [← hcnd]; exact h), dictGet?_append, dictGet?_append, hk]
  · rw [if_neg h, if_neg (by rw [← hcnd]; exact h), hk]

/-- The creator-path submission body ignores the submitted `status`
entries entirely: two submissions whose extracted values agree away from
`status` produce identical responses and identical stores. -/
theorem modalSubmitApply_status_blind (resolveName : String → Option String) (now : String)
    (sheet : Sheet) (ticketId : String) (t : StrDict) (fields : List Field)
    (sub₁ sub₂ : StrDict)
    (hf : sub₁.filter (fun p => p.1 != "status") = sub₂.filter (fun p => p.1 != "status")) :
    modalSubmitApply resolveName now sheet ticketId t false true fields sub₁ =
      modalSubmitApply resolveName now sheet ticketId t false true fields sub₂ := by
  have hcust : modalCustomBase sub₁ = modalCustomBase sub₂ := by
    unfold modalCustomBase
    rw [filter_noncore_eq_filterNE sub₁, hf, ← filter_noncore_eq_filterNE sub₂]
  have hreq : dictGet (modalCoreData fields sub₁) "requester" "" =
      dictGet (modalCoreData fields sub₂) "requester" "" := by
    unfold dictGet
    rw [modalCoreData_read fields sub₁ sub₂ hf "requester" rfl rfl]
  have hass : dictGet (modalCoreData fields sub₁) "assignee" "" =
      dictGet (modalCoreData fields sub₂) "assignee" "" := by
    unfold dictGet
    rw [modalCoreData_read fields sub₁ sub₂ hf "assignee" rfl rfl]
  have hprio : dictGet (modalCoreData fields sub₁) "priority" "MEDIUM" =
      dictGet (modalCoreData fields sub₂) "priority" "MEDIUM" := by
    unfold dictGet
    rw [modalCoreData_read fields sub₁ sub₂ hf "priority" rfl rfl]
  have hdesc : dictGet (modalCoreData fields sub₁) "description" "" =
      dictGet (modalCoreData fields sub₂) "description" "" := by
    unfold dictGet
    rw [modalCoreData_read fields sub₁ sub₂ hf "description" rfl rfl]
  simp only [modalSubmitApply, Bool.not_false, Bool.and_self, if_true]
  rw [hreq, hass, hprio, hdesc, hcust]

/-! ## Behaviour of `update_ticket_priority` -/

theorem sheetsUpdatePriority_valid (sheet : Sheet) (tid p : String) (i : Nat)
    (hfind : findRowIdx sheet tid = some i)
    (hv : (["CRITICAL", "HIGH", "MEDIUM", "LOW"].contains (pyUpper p)) = true) :
    sheetsUpdatePriority sheet tid p = (true, updateCell sheet i 4 (pyUpper p)) := by
  simp only [sheetsUpdatePriority, hv, Bool.not_true, Bool.false_eq_true, if_false, hfind]
  rw [updateCell_getD_self _ _ _ _ (findRowIdx_lt _ _ _ hfind)]
  simp [getCell_setCell]

theorem sheetsUpdatePriority_invalid (sheet : Sheet) (tid p : String)
    (hv : (["CRITICAL", "HIGH", "MEDIUM", "LOW"].contains (pyUpper p)) = false) :
    sheetsUpdatePriority sheet tid p = (false, sheet) := by
  unfold sheetsUpdatePriority
  rw [hv]
  rfl

theorem tsUpdatePriority_not_domain_valid (sheet : Sheet) (tid p : String)
    (hv : (["Low", "Medium", "High", "Urgent"].contains p) = false) :
    tsUpdatePriority sheet tid p = (false, sheet) := by
  cases hg : getTicket (some sheet) tid with
  | none => simp [tsUpdatePriority, hg]
  | some t =>
    simp only [tsUpdatePriority, hg]
    rw [hv]
    rfl

/-! ## The creator check of `get_tickets` tickets -/

theorem ticketOfRow_created_by (row : Row)
    (hnocb : dictGet? (loadsCF (getCell (padTo row 14) 12)) "created_by" = none) :
    dictGet (ticketOfRow row) "created_by" "" =
      dictGet (loadsCF (getCell (padTo row 14) 12)) "requester_id"
        (getCell (padTo row 14) 2) := by
  unfold ticketOfRow dictGet
  rw [dictGet?_append, hnocb, Option.none_or]
  rfl

theorem isCreator_ticketOfRow (row : Row) (u : String)
    (hnocb : dictGet? (loadsCF (getCell (padTo row 14) 12)) "created_by" = none) :
    isCreator u (ticketOfRow row) = true ↔
      u = dictGet (loadsCF (getCell (padTo row 14) 12)) "requester_id"
        (getCell (padTo row 14) 2) := by
  unfold isCreator
  rw [ticketOfRow_created_by row hnocb]
  exact beq_iff_eq

/-! ## Claim theorems -/

/-- C5: `update_status(id, s)` with `s` outside `{Open, Closed}` (for
example `Archived`), or with an id matching no stored ticket, returns the
failure signal and performs zero writes: the returned store is the input
store, every row and field unchanged. -/
theorem C5_update_status_invalid_or_missing_no_write (sheet : Sheet) (tid stt now : String)
    (h : ¬(stt = "Open" ∨ stt = "Closed") ∨ getTicket (some sheet) tid = none) :
    tsUpdateStatus sheet tid stt now = (false, sheet) :=
  tsUpdateStatus_fail sheet tid stt now h

/-- C5 witness: `update_status("1", "Archived")` on a store holding ticket
`1` fails and leaves the store unchanged. -/
theorem C5_witness :
    tsUpdateStatus [["1", "", "", "Open", "Medium", "", "", "", "", "", ""]] "1" "Archived"
        "2024-01-01 00:00:00" =
      (false, [["1", "", "", "Open", "Medium", "", "", "", "", "", ""]]) :=
  C5_update_status_invalid_or_missing_no_write _ _ _ _ (Or.inl (by decide))

/-- C6: `find_all` (`get_tickets`) returns exactly one ticket per distinct
ticket id — the keys of the insertion-ordered `ticket_dict` are pairwise
distinct and `get_tickets (some rows) = (ticketTable rows).map (·.2)`
definitionally — and the ticket stored under key `k` is built from the
last physical row whose id strips to `k`; concretely, a store with two
physical rows sharing ticket id `"5"` yields exactly one ticket `"5"`,
reflecting the later row's field values. -/
theorem C6_find_all_dedup_last_wins :
    (∀ rows : List Row, (tblKeys (ticketTable rows)).Nodup ∧
      ∀ k, tblLookup (ticketTable rows) k =
        ((rows.filter (fun row => rowValid row && rowKey row == k)).getLast?).map
          ticketOfRow) ∧
    getTickets (some [["5", "L1", "A", "Open", "High", "", "T0", "", "", "m1"],
                      ["5", "L2", "B", "Closed", "Low", "", "T0", "", "R", "m2"]]) =
      [ticketOfRow ["5", "L2", "B", "Closed", "Low", "", "T0", "", "R", "m2"]] :=
  ⟨fun rows =>
    ⟨ticketTable_keys_nodup rows,
     fun k => by rw [ticketTable_lookup, lastMatchRow_filter]⟩,
   by decide⟩

/-- C7 counterexample: the claim's parenthetical — allocation "returns 1"
also when tickets exist but none has a numeric id — fails: over a store
whose only ticket id is `"TEST-1"`, `max()` ranges over an empty generator
and raises `ValueError` (modelled as `none`), so no id (in particular not
1) is returned. -/
theorem C7_counterexample :
    getNextTicketId (getTickets (some [["TEST-1"]])) = none ∧
    getNextTicketId (getTickets (some [["TEST-1"]])) ≠ some 1 := by decide

/-- C7 (amended): id allocation returns max existing numeric id + 1, and
returns 1 when the store holds no tickets at all; when tickets exist but
none has a numeric id, the allocation raises (returns no id) instead of
returning 1.  Two sequential creations from an empty store yield ids "1"
then "2", and creation over a store containing ids {"3","7"} (with the
counter initialized from the scan) yields "8". -/
theorem C7_amended_next_id_max_plus_one :
    (getNextTicketId (getTickets (some [])) = some 1) ∧
    (∀ tickets : List StrDict, tickets ≠ [] → numericIds tickets = [] →
      getNextTicketId tickets = none) ∧
    (∀ (tickets : List StrDict) (m : Nat), m ∈ numericIds tickets →
      ∃ k, getNextTicketId tickets = some (k + 1) ∧ k ∈ numericIds tickets ∧
        ∀ n ∈ numericIds tickets, n ≤ k) ∧
    ((createTicket [] "T1" ⟨1, []⟩ "m1" "U1" "" "" "C1" "Medium").1 = some "1" ∧
     (createTicket [] "T2" (createTicket [] "T1" ⟨1, []⟩ "m1" "U1" "" "" "C1" "Medium").2
        "m2" "U2" "" "" "C1" "Medium").1 = some "2") ∧
    (getNextTicketId (getTickets (some [["3"], ["7"]])) = some 8 ∧
     (createTicket [] "T3"
        ⟨(getNextTicketId (getTickets (some [["3"], ["7"]]))).getD 1, [["3"], ["7"]]⟩
        "m" "U1" "" "" "C1" "Medium").1 = some "8") :=
  ⟨by decide, getNextTicketId_no_numeric, getNextTicketId_max_succ, by decide, by decide⟩

/-- C7 witness: the max-plus-one clause applied to the store with numeric
ids {3, 7}. -/
theorem C7_witness :
    ∃ k, getNextTicketId (getTickets (some [["3"], ["7"]])) = some (k + 1) ∧
      k ∈ numericIds (getTickets (some [["3"], ["7"]])) ∧
      ∀ n ∈ numericIds (getTickets (some [["3"], ["7"]])), n ≤ k :=
  C7_amended_next_id_max_plus_one.2.2.1 _ 3 (by decide)

/-- C10: `get_tickets` never raises — a failed store read (the `except`
branch, modelled as the `none` read result) yields the empty list — so a
store outage is indistinguishable from an empty store: `get_ticket` then
returns the not-found signal for every id, and the id allocation performed
at service start returns 1. -/
theorem C10_read_failure_degrades :
    getTickets none = [] ∧ (∀ tid, getTicket none tid = none) ∧
    getNextTicketId (getTickets none) = some 1 :=
  ⟨rfl, fun _ => rfl, rfl⟩

/-- C1 counterexample: the invariant `resolved_at non-empty iff status ==
Closed` does not survive `update_from_form`.  Create a ticket, close it
via `update_status` (stamping resolved-at), then submit the form with
status `Open`: the stored row ends with status `Open` and the stale
non-empty resolved-at, violating the claimed invariant — the modal path
stamps resolved-at only on Closed and never clears it. -/
theorem C1_counterexample :
    let st1 := (createTicket [] "2024-01-01 10:00:00" ⟨1, []⟩ "printer broken" "U1" "" ""
      "C1" "Medium").2
    let s2 := (tsUpdateStatus st1.sheet "1" "Closed" "2024-01-02 10:00:00").2
    let s3 := (tsUpdateFromModal s2 "1" "@Bob" "Open" "" "HIGH" "d" (some [])
      "2024-01-03 10:00:00").2
    getCell (s3.getD 0 []) 3 = "Open" ∧
    getCell (s3.getD 0 []) 8 = "2024-01-02 10:00:00" ∧
    ¬ sheetInv s3 := by decide

/-- C1 (amended): the invariant `resolved_at non-empty iff status ==
Closed` holds for every stored row after any sequence of `create` and
`update_status` operations (with non-empty timestamps) from a store
satisfying it; `update_from_form`, however, only stamps resolved-at when
the submitted status is Closed and never clears it — when the status is
not Closed it leaves every row's resolved-at cell untouched — so a form
submission that reopens a resolved ticket leaves the stale resolved-at in
place and breaks the iff. -/
theorem C1_amended_status_resolved_invariant :
    (∀ (cfgMap : ConfigMap) (ops : List (TicketOp × String)) (st : TSState),
      sheetInv st.sheet → (∀ p ∈ ops, p.2 ≠ "") →
      sheetInv (applyOps cfgMap st ops).sheet) ∧
    (∀ (sheet : Sheet) (tid req stt asg pr desc now : String) (cf : Option CustomFields)
      (j : Nat), stt ≠ "Closed" →
      getCell (((sheetsUpdateFromModal sheet tid req stt asg pr desc cf now).2).getD j []) 8 =
        getCell (sheet.getD j []) 8) := by
  constructor
  · intro cfgMap ops st hinv hnow
    exact sheetInv_applyOps cfgMap ops st hinv hnow
  · intro sheet tid req stt asg pr desc now cf j hstt
    cases hfind : findRowIdx sheet tid with
    | none => simp [sheetsUpdateFromModal, hfind]
    | some i =>
      obtain ⟨-, -, hgetD⟩ :=
        sheetsUpdateFromModal_spec sheet tid req stt asg pr desc now cf i hfind
      rw [hgetD j]
      by_cases hj : j = i
      · subst hj
        rw [if_pos rfl]
        have h8 := (modalRowWrite_cells (sheet.getD j []) req stt asg pr desc now cf).2.2.2.2.2.1
        rw [h8, if_neg (by simp [hstt]), getCell]
      · rw [if_neg hj]

/-- C1 witness: the invariant-preservation clause applied to a concrete
create-then-close sequence from the empty store. -/
theorem C1_witness :
    sheetInv (applyOps [] ⟨1, []⟩
      [(TicketOp.create "m" "U1" "" "" "C1" "Medium", "2024-01-01 00:00:00"),
       (TicketOp.updateStatus "1" "Closed", "2024-01-02 00:00:00")]).sheet :=
  C1_amended_status_resolved_invariant.1 [] _ ⟨1, []⟩ (by decide) (by decide)

/-- C2 counterexample: for a ticket whose custom-fields map holds no
`requester_id` key, `get_tickets` falls back to the requester
display-name cell for `created_by`, so a user id equal to the stored
display string `"@Alice"` passes the creator check — the claim asserts it
must be false. -/
theorem C2_counterexample :
    dictGet? (loadsCF (getCell (padTo
      ["7", "", "@Alice", "Open", "Medium", "", "", "", "", "d", "C1", "chan", "", ""] 14) 12))
      "requester_id" = none ∧
    isCreator "@Alice"
      (ticketOfRow
        ["7", "", "@Alice", "Open", "Medium", "", "", "", "", "d", "C1", "chan", "", ""]) =
      true := by decide

/-- C2 (amended): for tickets whose custom fields do not themselves define
a `created_by` key, the creator check is an exact match against
`custom_fields.requester_id` whenever that key is present (and then cannot
be spoofed by the display name); when the `requester_id` key is absent,
`created_by` falls back to the stored requester display string, and the
check is exactly a match against that free-text display value. -/
theorem C2_amended_is_creator_fallback (row : Row) (u : String)
    (hnocb : dictGet? (loadsCF (getCell (padTo row 14) 12)) "created_by" = none) :
    (∀ cid, dictGet? (loadsCF (getCell (padTo row 14) 12)) "requester_id" = some cid →
      (isCreator u (ticketOfRow row) = true ↔ u = cid)) ∧
    (dictGet? (loadsCF (getCell (padTo row 14) 12)) "requester_id" = none →
      (isCreator u (ticketOfRow row) = true ↔ u = getCell (padTo row 14) 2)) := by
  constructor
  · intro cid hrid
    have h := isCreator_ticketOfRow row u hnocb
    rwa [dictGet, hrid, Option.getD_some] at h
  · intro hrid
    have h := isCreator_ticketOfRow row u hnocb
    rwa [dictGet, hrid, Option.getD_none] at h

/-- C2 witness: a ticket whose custom fields carry `requester_id = "U1"`
is recognized as created by `U1`. -/
theorem C2_witness :
    isCreator "U1"
      (ticketOfRow ["7", "", "@Alice", "Open", "Medium", "", "", "", "", "d", "C1", "chan",
        "\x7b\"requester_id\": \"U1\"\x7d", ""]) = true :=
  ((C2_amended_is_creator_fallback
      ["7", "", "@Alice", "Open", "Medium", "", "", "", "", "d", "C1", "chan",
        "\x7b\"requester_id\": \"U1\"\x7d", ""] "U1" (by decide)).1 "U1" (by decide)).mpr rfl

/-- C8 counterexample: through the domain service, `update_priority(id,
"CRITICAL")` on an existing ticket fails with no write, although the
upper-casing of `"CRITICAL"` is in the valid set — the domain wrapper
first validates the raw string against the Title-case set
`['Low', 'Medium', 'High', 'Urgent']`. -/
theorem C8_counterexample :
    (getTicket (some [["1", "", "", "Open", "Medium", "", "", "", "", "", ""]]) "1").isSome =
      true ∧
    (["CRITICAL", "HIGH", "MEDIUM", "LOW"].contains (pyUpper "CRITICAL")) = true ∧
    tsUpdatePriority [["1", "", "", "Open", "Medium", "", "", "", "", "", ""]] "1" "CRITICAL" =
      (false, [["1", "", "", "Open", "Medium", "", "", "", "", "", ""]]) := by decide

/-- C8 (amended): the claim holds of the store layer
(`SheetsService.update_ticket_priority`): any priority whose upper-casing
is in {CRITICAL, HIGH, MEDIUM, LOW} succeeds on a found row, writing the
upper-cased canonical value to the priority column, and any other value
fails with no write.  The domain-service wrapper
(`TicketService.update_ticket_priority`), however, pre-validates the raw
string against the Title-case set {Low, Medium, High, Urgent}, so any
string outside that set — including upper-case members of the store's own
valid set — fails at the wrapper with no write. -/
theorem C8_amended_priority_canonicalization :
    (∀ (sheet : Sheet) (tid p : String) (i : Nat),
      findRowIdx sheet tid = some i →
      (["CRITICAL", "HIGH", "MEDIUM", "LOW"].contains (pyUpper p)) = true →
      sheetsUpdatePriority sheet tid p = (true, updateCell sheet i 4 (pyUpper p))) ∧
    (∀ (sheet : Sheet) (tid p : String),
      (["CRITICAL", "HIGH", "MEDIUM", "LOW"].contains (pyUpper p)) = false →
      sheetsUpdatePriority sheet tid p = (false, sheet)) ∧
    (∀ (sheet : Sheet) (tid p : String),
      (["Low", "Medium", "High", "Urgent"].contains p) = false →
      tsUpdatePriority sheet tid p = (false, sheet)) :=
  ⟨sheetsUpdatePriority_valid, sheetsUpdatePriority_invalid, tsUpdatePriority_not_domain_valid⟩

/-- C8 witness: the store layer canonicalizes `"critical"` to
`"CRITICAL"` on an existing row. -/
theorem C8_witness :
    sheetsUpdatePriority [["1", "", "", "Open", "Medium", "", "", "", "", "", ""]] "1"
        "critical" =
      (true, updateCell [["1", "", "", "Open", "Medium", "", "", "", "", "", ""]] 0 4
        (pyUpper "critical")) :=
  C8_amended_priority_canonicalization.1 _ "1" "critical" 0 (by decide) (by decide)

/-- C9 counterexample: `update_from_form` overwrites the created-at column
(column 7 of the 14-column schema, index 6) with its update-time stamp,
so that column does not survive the call unchanged as the claim states. -/
theorem C9_counterexample :
    (sheetsUpdateFromModal
      [["1", "L", "R", "Open", "Medium", "A", "2024-01-01 00:00:00", "", "", "d", "C1",
        "chan", "", ""]]
      "1" "@B" "Open" "@C" "HIGH" "nd" (some []) "2025-02-02 00:00:00").1 = true ∧
    getCell ((sheetsUpdateFromModal
      [["1", "L", "R", "Open", "Medium", "A", "2024-01-01 00:00:00", "", "", "d", "C1",
        "chan", "", ""]]
      "1" "@B" "Open" "@C" "HIGH" "nd" (some []) "2025-02-02 00:00:00").2.getD 0 []) 6 =
      "2025-02-02 00:00:00" := by decide

/-- C9 (amended): on an existing ticket, `update_from_form` changes only
the five core display cells (requester C, status D, priority E, assignee
F), the description cell J, the custom-fields cell M (full replace, when a
map is passed), the resolved-at cell I (stamped only when the submitted
status is Closed), and the update-time stamp — which is written into
column G, the created-at column of the schema, overwriting the stored
created-at.  Every other cell of that row (ticket id, thread link,
first-response, channel id, channel name, internal message reference) is
unchanged, as is every other row. -/
theorem C9_amended_modal_update_frame (sheet : Sheet)
    (tid req stt asg pr desc now : String) (cf : Option CustomFields) (i : Nat)
    (hfind : findRowIdx sheet tid = some i) :
    (sheetsUpdateFromModal sheet tid req stt asg pr desc cf now).1 = true ∧
    (sheetsUpdateFromModal sheet tid req stt asg pr desc cf now).2.length = sheet.length ∧
    (∀ j, j ≠ i →
      (sheetsUpdateFromModal sheet tid req stt asg pr desc cf now).2.getD j [] =
        sheet.getD j []) ∧
    (let r' := (sheetsUpdateFromModal sheet tid req stt asg pr desc cf now).2.getD i []
     let r := sheet.getD i []
     getCell r' 2 = req ∧ getCell r' 3 = stt ∧ getCell r' 4 = pr ∧ getCell r' 5 = asg ∧
     getCell r' 6 = now ∧
     getCell r' 8 = (if stt == "Closed" then now else getCell r 8) ∧
     getCell r' 9 = desc ∧
     getCell r' 12 = (match cf with | some m => dumpsCell m | none => getCell r 12) ∧
     ∀ c, c ≠ 2 → c ≠ 3 → c ≠ 4 → c ≠ 5 → c ≠ 6 → c ≠ 8 → c ≠ 9 → c ≠ 12 →
       getCell r' c = getCell r c) := by
  obtain ⟨h1, h2, hgetD⟩ :=
    sheetsUpdateFromModal_spec sheet tid req stt asg pr desc now cf i hfind
  refine ⟨h1, h2, fun j hj => by rw [hgetD j, if_neg hj], ?_⟩
  rw [hgetD i, if_pos rfl]
  exact modalRowWrite_cells (sheet.getD i []) req stt asg pr desc now cf

/-- C9 witness: the frame applied to a concrete one-row store. -/
theorem C9_witness :
    (sheetsUpdateFromModal [["1", "L", "R", "Open", "Medium", "A", "T0", "FR", "", "d",
        "C1", "chan", "", "ts"]] "1" "@B" "Closed" "@C" "HIGH" "nd" (some [("x", "y")])
        "T9").1 = true ∧
    (∀ j, j ≠ 0 →
      (sheetsUpdateFromModal [["1", "L", "R", "Open", "Medium", "A", "T0", "FR", "", "d",
        "C1", "chan", "", "ts"]] "1" "@B" "Closed" "@C" "HIGH" "nd" (some [("x", "y")])
        "T9").2.getD j [] =
        [["1", "L", "R", "Open", "Medium", "A", "T0", "FR", "", "d", "C1", "chan", "",
          "ts"]].getD j []) :=
  ⟨(C9_amended_modal_update_frame _ "1" "@B" "Closed" "@C" "HIGH" "nd" "T9"
      (some [("x", "y")]) 0 (by decide)).1,
   fun j hj => (C9_amended_modal_update_frame _ "1" "@B" "Closed" "@C" "HIGH" "nd" "T9"
      (some [("x", "y")]) 0 (by decide)).2.2.1 j hj⟩

/-- C3: a modal submission by the ticket's creator who is not an admin
succeeds (the modal is cleared), the status written to the located row is
the ticket's stored status from before the submission, and the whole
outcome — response and resulting store — is independent of any `status`
value in the submitted value bag: any bag whose extracted values agree
away from `status` produces the identical result. -/
theorem C3_creator_submission_preserves_status (cfgMap : ConfigMap) (envAdminCsv : String)
    (resolveName : String → Option String) (now : String) (sheet : Sheet)
    (ticketId channelId userId : String) (fields : List Field) (values : ValueBag)
    (t : StrDict) (i : Nat)
    (hticket : getTicket (some sheet) ticketId = some t)
    (hadmin : (adminIdsFor cfgMap envAdminCsv channelId).contains userId = false)
    (hcr : isCreator userId t = true)
    (hfind : findRowIdx sheet ticketId = some i) :
    (handleModalSubmissionDirect cfgMap envAdminCsv resolveName now sheet ticketId channelId
        userId fields values).1 = .clear ∧
    getCell ((handleModalSubmissionDirect cfgMap envAdminCsv resolveName now sheet ticketId
        channelId userId fields values).2.getD i []) 3 = dictGet t "status" "Open" ∧
    ∀ values' : ValueBag,
      (extractModalValues values' fields).filter (fun p => p.1 != "status") =
        (extractModalValues values fields).filter (fun p => p.1 != "status") →
      handleModalSubmissionDirect cfgMap envAdminCsv resolveName now sheet ticketId channelId
          userId fields values' =
        handleModalSubmissionDirect cfgMap envAdminCsv resolveName now sheet ticketId
          channelId userId fields values := by
  rw [handleModalSubmissionDirect_submit cfgMap envAdminCsv resolveName now sheet ticketId
    channelId userId fields values t hticket hadmin hcr]
  refine ⟨(modalSubmitApply_creator_clear resolveName now sheet ticketId t fields _ i hfind
      hticket).1,
    (modalSubmitApply_creator_clear resolveName now sheet ticketId t fields _ i hfind
      hticket).2, ?_⟩
  intro values' hv
  rw [handleModalSubmissionDirect_submit cfgMap envAdminCsv resolveName now sheet ticketId
    channelId userId fields values' t hticket hadmin hcr]
  exact modalSubmitApply_status_blind resolveName now sheet ticketId t fields _ _ hv

/-- C3 witness: a creator (non-admin) submits the form with status
`Closed`; the stored status stays at the prior value. -/
theorem C3_witness :
    (handleModalSubmissionDirect [] "" (fun _ => none) "2024-05-05 05:00:00"
      [["1", "", "U1", "Open", "Medium", "", "T0", "", "", "d", "C1", "chan", "", ""]]
      "1" "C1" "U1" [mkField "status" "select", mkField "description" "textarea"]
      [("status", [("status_select", ⟨none, some "Closed", none, none⟩)]),
       ("description", [("description_input", ⟨none, none, none, some "nd"⟩)])]).1 =
      SubmitResponse.clear ∧
    getCell ((handleModalSubmissionDirect [] "" (fun _ => none) "2024-05-05 05:00:00"
      [["1", "", "U1", "Open", "Medium", "", "T0", "", "", "d", "C1", "chan", "", ""]]
      "1" "C1" "U1" [mkField "status" "select", mkField "description" "textarea"]
      [("status", [("status_select", ⟨none, some "Closed", none, none⟩)]),
       ("description", [("description_input", ⟨none, none, none, some "nd"⟩)])]).2.getD 0 [])
      3 =
      dictGet (ticketOfRow
        ["1", "", "U1", "Open", "Medium", "", "T0", "", "", "d", "C1", "chan", "", ""])
        "status" "Open" :=
  ⟨(C3_creator_submission_preserves_status [] "" (fun _ => none) "2024-05-05 05:00:00"
      [["1", "", "U1", "Open", "Medium", "", "T0", "", "", "d", "C1", "chan", "", ""]]
      "1" "C1" "U1" [mkField "status" "select", mkField "description" "textarea"]
      [("status", [("status_select", ⟨none, some "Closed", none, none⟩)]),
       ("description", [("description_input", ⟨none, none, none, some "nd"⟩)])]
      (ticketOfRow
        ["1", "", "U1", "Open", "Medium", "", "T0", "", "", "d", "C1", "chan", "", ""])
      0 (by decide) (by decide) (by decide) (by decide)).1,
   (C3_creator_submission_preserves_status [] "" (fun _ => none) "2024-05-05 05:00:00"
      [["1", "", "U1", "Open", "Medium", "", "T0", "", "", "d", "C1", "chan", "", ""]]
      "1" "C1" "U1" [mkField "status" "select", mkField "description" "textarea"]
      [("status", [("status_select", ⟨none, some "Closed", none, none⟩)]),
       ("description", [("description_input", ⟨none, none, none, some "nd"⟩)])]
      (ticketOfRow
        ["1", "", "U1", "Open", "Medium", "", "T0", "", "", "d", "C1", "chan", "", ""])
      0 (by decide) (by decide) (by decide) (by decide)).2.1⟩

/-- C4 counterexample: a submission by a user who is neither admin nor
creator is rejected with the error keyed to the literal `description`
field id even when the template contains no `description` field — the
claim's fallback to the template's first field id (`foo` here) does not
happen on the permission-rejection path. -/
theorem C4_counterexample :
    (([mkField "foo" "text"].map (·.field_id)).contains "description") = false ∧
    handleModalSubmissionDirect [] "" (fun _ => none) "T"
        [["1", "", "U1", "Open", "Medium", "", "T0", "", "", "d", "C1", "chan", "", ""]]
        "1" "C1" "U9" [mkField "foo" "text"] [] =
      (.errors "description" "Only admins and ticket creators can update tickets.",
       [["1", "", "U1", "Open", "Medium", "", "T0", "", "", "d", "C1", "chan", "", ""]]) ∧
    ∀ msg, (handleModalSubmissionDirect [] "" (fun _ => none) "T"
        [["1", "", "U1", "Open", "Medium", "", "T0", "", "", "d", "C1", "chan", "", ""]]
        "1" "C1" "U9" [mkField "foo" "text"] []).1 ≠ SubmitResponse.errors "foo" msg := by
  refine ⟨by decide, by decide, ?_⟩
  intro msg h
  have heq : handleModalSubmissionDirect [] "" (fun _ => none) "T"
      [["1", "", "U1", "Open", "Medium", "", "T0", "", "", "d", "C1", "chan", "", ""]]
      "1" "C1" "U9" [mkField "foo" "text"] [] =
      (.errors "description" "Only admins and ticket creators can update tickets.",
       [["1", "", "U1", "Open", "Medium", "", "T0", "", "", "d", "C1", "chan", "", ""]]) := by
    decide
  rw [heq] at h
  simp at h

/-- C4 (amended): a modal submission by a user who is neither an admin of
the channel nor the ticket's creator is rejected with a field-level
validation error keyed to the literal `description` field id — regardless
of whether the template contains a `description` field (the first-field
fallback exists only on the unexpected-exception path) — and performs no
mutation: the store is returned unchanged. -/
theorem C4_amended_permission_rejection (cfgMap : ConfigMap) (envAdminCsv : String)
    (resolveName : String → Option String) (now : String) (sheet : Sheet)
    (ticketId channelId userId : String) (fields : List Field) (values : ValueBag)
    (t : StrDict) (hticket : getTicket (some sheet) ticketId = some t)
    (hadmin : (adminIdsFor cfgMap envAdminCsv channelId).contains userId = false)
    (hcr : isCreator userId t = false) :
    handleModalSubmissionDirect cfgMap envAdminCsv resolveName now sheet ticketId channelId
        userId fields values =
      (.errors "description" "Only admins and ticket creators can update tickets.", sheet) :=
  handleModalSubmissionDirect_reject cfgMap envAdminCsv resolveName now sheet ticketId
    channelId userId fields values t hticket hadmin hcr

/-- C4 witness: a stranger's submission against a template that does carry
a `description` field is rejected with the `description`-keyed error and
no store change. -/
theorem C4_witness :
    handleModalSubmissionDirect [] "" (fun _ => none) "T"
        [["2", "", "U1", "Open", "Medium", "", "T0", "", "", "d", "C1", "chan", "", ""]]
        "2" "C1" "U7" [mkField "description" "textarea"] [] =
      (.errors "description" "Only admins and ticket creators can update tickets.",
       [["2", "", "U1", "Open", "Medium", "", "T0", "", "", "d", "C1", "chan", "", ""]]) :=
  C4_amended_permission_rejection [] "" (fun _ => none) "T"
    [["2", "", "U1", "Open", "Medium", "", "T0", "", "", "d", "C1", "chan", "", ""]]
    "2" "C1" "U7" [mkField "description" "textarea"] []
    (ticketOfRow ["2", "", "U1", "Open", "Medium", "", "T0", "", "", "d", "C1", "chan", "", ""])
    (by decide) (by decide) (by decide)

end Hubble
